import Mathlib

/-!
Shallow embedding of the assertion evaluation engine in
`app/assertions.py` of this repository.

JSON-shaped Python runtime values are modelled by `JSON`.  Python floats
are modelled as rationals; the claims settled here depend only on exact
numeric comparison of small values, never on binary rounding.  A Python
function that can raise is modelled with `Except String`, the error
string naming the Python exception class; a normal return is `.ok`.
Python `None` appearing as a data value (including the `None` default of
the optional `expected`/`actual` fields) is modelled by `JSON.null`.
-/

inductive JSON where
  | null
  | bool (b : Bool)
  | int (n : Int)
  | float (q : ℚ)
  | str (s : String)
  | arr (elems : List JSON)
  | obj (fields : List (String × JSON))

/-- `AssertionResult` (pydantic model in the source): per-rule verdict. -/
structure AssertionResult where
  passed : Bool
  message : String
  assertion_type : String
  expected : JSON
  actual : JSON

/-- Python `dict` lookup on a string-keyed association list.  JSON objects
have unique keys, so first-match lookup is faithful. -/
def jLookup (k : String) : List (String × JSON) → Option JSON
  | [] => none
  | (k', v) :: rest => if k' == k then some v else jLookup k rest

/-- The numeric view Python uses for `==`, `<`, `<=` across `bool`, `int`
and `float`: a Python `bool` is a subclass of `int` with value 0 or 1. -/
def asNum : JSON → Option ℚ
  | .bool b => some (if b then 1 else 0)
  | .int n => some (n : ℚ)
  | .float q => some q
  | _ => none

/-- Python truthiness (`if not x`). -/
def pyTruthy : JSON → Bool
  | .null => false
  | .bool b => b
  | .int n => n != 0
  | .float q => q != 0
  | .str s => s != ""
  | .arr xs => !xs.isEmpty
  | .obj fs => !fs.isEmpty

/-- `type(value).__name__` for the JSON-shaped runtime values. -/
def pyTypeName : JSON → String
  | .null => "NoneType"
  | .bool _ => "bool"
  | .int _ => "int"
  | .float _ => "float"
  | .str _ => "str"
  | .arr _ => "list"
  | .obj _ => "dict"

/-- Python `==` on values that are not both strings, lists, dicts or
`None`: numbers (`bool`, `int`, `float`) compare by numeric value —
Python treats `True == 1` and `5 == 5.0` as true — and every other
cross-kind comparison is false. -/
def scalarEq (a b : JSON) : Bool :=
  match a, b with
  | .null, .null => true
  | a', b' =>
    match asNum a', asNum b' with
    | some x, some y => x == y
    | _, _ => false

theorem sizeOf_jLookup {k : String} :
    ∀ {ys : List (String × JSON)} {w : JSON}, jLookup k ys = some w → sizeOf w < sizeOf ys := by
  intro ys
  induction ys with
  | nil => intro w h; simp [jLookup] at h
  | cons p rest ih =>
    intro w h
    obtain ⟨k', v⟩ := p
    simp only [jLookup] at h
    by_cases hk : (k' == k) = true
    · rw [if_pos hk] at h
      cases h
      simp only [List.cons.sizeOf_spec, Prod.mk.sizeOf_spec]
      omega
    · rw [if_neg hk] at h
      have := ih h
      simp only [List.cons.sizeOf_spec]
      omega

set_option linter.unusedVariables false in
mutual
/-- Python `==` on JSON-shaped values. -/
def pyEq : JSON → JSON → Bool
  | .str s, .str t => s == t
  | .arr xs, .arr ys => pyEqList xs ys
  | .obj xs, .obj ys => pyEqSub xs ys && pyEqSub ys xs
  | a, b => scalarEq a b
termination_by a b => sizeOf a + sizeOf b
decreasing_by
  all_goals simp_wf
  all_goals omega
/-- Elementwise Python `==` on lists. -/
def pyEqList : List JSON → List JSON → Bool
  | [], [] => true
  | x :: xs, y :: ys => pyEq x y && pyEqList xs ys
  | _, _ => false
termination_by xs ys => sizeOf xs + sizeOf ys
decreasing_by
  all_goals simp_wf
  all_goals omega
/-- One inclusion of Python `dict` equality: every key of the first dict
is present in the second with an equal value.  Python `d1 == d2` is the
conjunction of both inclusions (keys are unique). -/
def pyEqSub : List (String × JSON) → List (String × JSON) → Bool
  | [], _ => true
  | (k, v) :: rest, ys =>
    (match h : jLookup k ys with
     | some w => pyEq v w
     | none => false) && pyEqSub rest ys
termination_by xs ys => sizeOf xs + sizeOf ys
decreasing_by
  all_goals simp_wf
  · have := sizeOf_jLookup h
    omega
end

-- Sanity checks: Python equality quirks the claims talk about.
example : pyEq (.bool true) (.int 1) = true := by simp [pyEq, scalarEq, asNum]
example : pyEq (.float 5) (.int 5) = true := by simp [pyEq, scalarEq, asNum]
example : pyEq (.bool true) (.int 2) = false := by simp [pyEq, scalarEq, asNum]
example : pyEq (.str "1") (.int 1) = false := by simp [pyEq, scalarEq, asNum]
example : pyEq (.arr [.int 1, .bool true]) (.arr [.bool true, .int 1]) = true := by
  simp [pyEq, pyEqList, scalarEq, asNum]
example : pyEq (.obj [("a", .int 1)]) (.obj [("a", .float 1)]) = true := by
  simp [pyEq, pyEqSub, jLookup, scalarEq, asNum]
example : pyEq (.obj [("a", .int 1)]) (.obj [("b", .int 1)]) = false := by
  simp [pyEq, pyEqSub, jLookup, scalarEq, asNum]

/-- `', '.join`-style concatenation. -/
def joinWith (sep : String) : List String → String
  | [] => ""
  | [x] => x
  | x :: y :: xs => x ++ sep ++ joinWith sep (y :: xs)

mutual
/-- Python `repr` of a JSON-shaped value, as interpolated for containers
by f-strings.  `repr` of strings is modelled for plain strings (no
escape processing); no claim depends on string escaping, nor on the
rendering of non-integral floats, which is approximated. -/
def pyRepr : JSON → String
  | .null => "None"
  | .bool true => "True"
  | .bool false => "False"
  | .int n => toString n
  | .float q => if q.den = 1 then toString q.num ++ ".0" else toString q.num ++ "/" ++ toString q.den
  | .str s => "'" ++ s ++ "'"
  | .arr xs => "[" ++ pyReprList xs ++ "]"
  | .obj fs => "\x7b" ++ pyReprObj fs ++ "\x7d"
termination_by v => sizeOf v
decreasing_by
  all_goals simp_wf
def pyReprList : List JSON → String
  | [] => ""
  | [x] => pyRepr x
  | x :: y :: xs => pyRepr x ++ ", " ++ pyReprList (y :: xs)
termination_by xs => sizeOf xs
decreasing_by
  all_goals simp_wf
  all_goals omega
def pyReprObj : List (String × JSON) → String
  | [] => ""
  | [(k, v)] => "'" ++ k ++ "': " ++ pyRepr v
  | (k, v) :: p :: fs => "'" ++ k ++ "': " ++ pyRepr v ++ ", " ++ pyReprObj (p :: fs)
termination_by fs => sizeOf fs
decreasing_by
  all_goals simp_wf
  all_goals omega
end

/-- Python `str` of a JSON-shaped value, as used by f-string
interpolation: strings render as their contents, everything else as its
`repr`. -/
def pyStr : JSON → String
  | .str s => s
  | v => pyRepr v

example : pyStr (.bool true) = "True" := by simp [pyStr, pyRepr]
example : pyStr (.arr [.int 200, .int 201]) = "[200, 201]" := by
  simp [pyStr, pyRepr, pyReprList]
  rfl

-- Path resolution (`get_nested_value`).

/-- Python `str.isdigit`, restricted to ASCII digits (the paths in this
repository are ASCII; non-ASCII digit characters are not modelled). -/
def pyIsDigit (s : String) : Bool := !s.isEmpty && s.data.all (fun c => c.isDigit)

/-- Python `int` on an all-digit string. -/
def digitsToNat (s : String) : Nat := s.data.foldl (fun a c => a * 10 + (c.toNat - 48)) 0

/-- The character-level normalization in `get_nested_value`:
`path.replace('[', '.').replace(']', '')`. -/
def normPathChars (cs : List Char) : List Char :=
  (cs.map (fun c => if c == '[' then '.' else c)).filter (fun c => c != ']')

/-- Python `str.split('.')`: splits on every dot and keeps empty
segments, with `[""]` for the empty string. -/
def splitDot : List Char → List (List Char)
  | [] => [[]]
  | c :: cs =>
    if c == '.' then [] :: splitDot cs
    else
      match splitDot cs with
      | s :: rest => (c :: s) :: rest
      | [] => [[c]]

/-- `path.replace('[', '.').replace(']', '').split('.')`. -/
def pathKeys (path : String) : List String :=
  (splitDot (normPathChars path.data)).map (fun cs => String.mk cs)

example : pathKeys "customers[0].name" = ["customers", "0", "name"] := rfl
example : pathKeys "a.b[0].c" = ["a", "b", "0", "c"] := rfl
example : pathKeys "" = [""] := rfl

/-- One loop iteration of `get_nested_value`:
`value[int(key)]` for an all-digit segment, `value[key]` otherwise, with
`none` standing for a raised-and-caught
`KeyError`/`IndexError`/`TypeError`.  A Python `str` is indexable
(yielding a one-character string); an all-digit segment applied to a
`dict` raises `KeyError` because the keys are strings, not ints. -/
def step (v : JSON) (k : String) : Option JSON :=
  if pyIsDigit k then
    match v with
    | .arr xs => xs.get? (digitsToNat k)
    | .str s => (s.data.get? (digitsToNat k)).map (fun c => .str (String.mk [c]))
    | _ => none
  else
    match v with
    | .obj fs => jLookup k fs
    | _ => none

/-- The segment walk in `get_nested_value`; `none` when any segment
lookup raised (and was caught). -/
def walk : JSON → List String → Option JSON
  | v, [] => some v
  | v, k :: ks =>
    match step v k with
    | some w => walk w ks
    | none => none

/-- `get_nested_value(data, path)`.  A non-string path raises
`AttributeError` at `path.replace`, which the surrounding `try` absorbs
into `(False, None)`. -/
def get_nested_value (data : JSON) (path : JSON) : Bool × JSON :=
  match path with
  | .str s =>
    match walk data (pathKeys s) with
    | some v => (true, v)
    | none => (false, .null)
  | _ => (false, .null)

example :
    get_nested_value (.obj [("metadata", .obj [("totalCount", .int 5)])]) (.str "metadata.totalCount")
      = (true, .int 5) := rfl
example :
    get_nested_value (.obj [("customers", .arr [.obj [("name", .str "Ann")]])]) (.str "customers[0].name")
      = (true, .str "Ann") := rfl
example : get_nested_value (.obj [("a", .null)]) (.str "a") = (true, .null) := rfl
example : get_nested_value (.obj [("a", .int 1)]) (.str "b") = (false, .null) := rfl
example : get_nested_value (.obj [("a", .str "xyz")]) (.str "a.1") = (true, .str "y") := rfl
example : get_nested_value (.obj [("a", .obj [("1", .int 9)])]) (.str "a.1") = (false, .null) := rfl

-- Python operations the evaluators use.

/-- `dict.get(k)` with default `None`; any non-dict raises
`AttributeError` (uncaught in the evaluators). -/
def dictGet (config : JSON) (k : String) : Except String JSON :=
  match config with
  | .obj fs => .ok ((jLookup k fs).getD .null)
  | _ => .error "AttributeError"

/-- `dict.items()`; any non-dict raises `AttributeError`. -/
def dictItems (schema : JSON) : Except String (List (String × JSON)) :=
  match schema with
  | .obj fs => .ok fs
  | _ => .error "AttributeError"

/-- Whether `needle` starts `hay`. -/
def leadsChars : List Char → List Char → Bool
  | [], _ => true
  | _ :: _, [] => false
  | a :: as, b :: bs => a == b && leadsChars as bs

/-- Whether `needle` occurs contiguously in `hay` (Python `sub in str`). -/
def hasSubChars (needle : List Char) : List Char → Bool
  | [] => leadsChars needle []
  | c :: rest => leadsChars needle (c :: rest) || hasSubChars needle rest

/-- Python `x in container`.  Lists test membership by `==`; dicts test
key membership (raising `TypeError` for unhashable `x`); strings test
substring occurrence of a string operand and raise `TypeError` for any
other operand; every other value raises `TypeError`. -/
def pyContains (x : JSON) (container : JSON) : Except String Bool :=
  match container with
  | .arr ys => .ok (ys.any (fun y => pyEq y x))
  | .obj fs =>
    match x with
    | .arr _ => .error "TypeError"
    | .obj _ => .error "TypeError"
    | _ => .ok (fs.any (fun p => pyEq (.str p.1) x))
  | .str s =>
    match x with
    | .str t => .ok (hasSubChars t.data s.data)
    | _ => .error "TypeError"
  | _ => .error "TypeError"

/-- Python `container[key]` for a string key, as used by
`threshold["max"]`: dict lookup (`KeyError` when absent); lists and
strings reject string indices and scalars are not subscriptable, all
raising `TypeError`. -/
def pySubscript (container : JSON) (key : String) : Except String JSON :=
  match container with
  | .obj fs =>
    match jLookup key fs with
    | some v => .ok v
    | none => .error "KeyError"
  | _ => .error "TypeError"

/-- Python `a <= b` with a float on the left: numeric comparison, or
`TypeError` when `b` is not a number. -/
def pyLEq (a : ℚ) (b : JSON) : Except String Bool :=
  match asNum b with
  | some q => .ok (decide (a ≤ q))
  | none => .error "TypeError"

/-- Python `n < b` with an int on the left. -/
def pyLTi (n : Int) (b : JSON) : Except String Bool :=
  match asNum b with
  | some q => .ok (decide ((n : ℚ) < q))
  | none => .error "TypeError"

/-- Python `n > b` with an int on the left. -/
def pyGTi (n : Int) (b : JSON) : Except String Bool :=
  match asNum b with
  | some q => .ok (decide (q < (n : ℚ)))
  | none => .error "TypeError"

/-- Python `for x in v`: lists yield elements, strings yield
one-character strings, dicts yield their keys, everything else raises
`TypeError`. -/
def pyIterate : JSON → Except String (List JSON)
  | .arr xs => .ok xs
  | .str s => .ok (s.data.map (fun c => .str (String.mk [c])))
  | .obj fs => .ok (fs.map (fun p => .str p.1))
  | _ => .error "TypeError"

/-- `', '.join` raises `TypeError` on any non-string element. -/
def strOnly : List JSON → Except String (List String)
  | [] => .ok []
  | .str s :: rest =>
    match strOnly rest with
    | .ok ss => .ok (s :: ss)
    | .error e => .error e
  | _ :: _ => .error "TypeError"

/-- Python `', '.join(xs)`. -/
def pyJoinComma (xs : List JSON) : Except String String :=
  match strOnly xs with
  | .ok ss => .ok (joinWith ", " ss)
  | .error e => .error e

/-- Python `format(q, '.0f')` modelled as round-half-to-even to an
integer (exact on rationals; binary-float artifacts are out of scope of
the claims). -/
def pyRound0 (q : ℚ) : Int :=
  let fl := ⌊q⌋
  if q - fl < 1 / 2 then fl
  else if 1 / 2 < q - fl then fl + 1
  else if fl % 2 = 0 then fl else fl + 1

-- The eight evaluators.

/-- `evaluate_status_code(expected, actual)`.  `isinstance(expected, int)`
is true for Python bools as well; the membership test `actual in allowed`
is the one operation here that can raise. -/
def evaluate_status_code (expected : JSON) (actual : Int) : Except String AssertionResult :=
  match expected with
  | .int _ | .bool _ =>
    let passed := pyEq (.int actual) expected
    if passed then
      .ok ⟨true, "Status code is " ++ toString actual, "statusCode", expected, .int actual⟩
    else
      .ok ⟨false, "Expected status code " ++ pyStr expected ++ ", got " ++ toString actual,
        "statusCode", expected, .int actual⟩
  | .obj fields =>
    match jLookup "in" fields with
    | some allowed =>
      match pyContains (.int actual) allowed with
      | .error e => .error e
      | .ok passed =>
        if passed then
          .ok ⟨true, "Status code " ++ toString actual ++ " is in allowed list",
            "statusCode", allowed, .int actual⟩
        else
          .ok ⟨false, "Expected status code in " ++ pyStr allowed ++ ", got " ++ toString actual,
            "statusCode", allowed, .int actual⟩
    | none => .ok ⟨false, "Invalid status code assertion format", "statusCode", .null, .null⟩
  | _ => .ok ⟨false, "Invalid status code assertion format", "statusCode", .null, .null⟩

/-- `evaluate_response_time(threshold, actual_ms)`.  Both the membership
test `"max" not in threshold` and the comparison `actual_ms <= max_time`
can raise. -/
def evaluate_response_time (threshold : JSON) (actual_ms : ℚ) : Except String AssertionResult :=
  match pyContains (.str "max") threshold with
  | .error e => .error e
  | .ok hasMax =>
    if !hasMax then
      .ok ⟨false, "Response time threshold must have 'max' key", "responseTime", .null, .null⟩
    else
      match pySubscript threshold "max" with
      | .error e => .error e
      | .ok max_time =>
        match pyLEq actual_ms max_time with
        | .error e => .error e
        | .ok passed =>
          if passed then
            .ok ⟨true, "Response time " ++ toString (pyRound0 actual_ms) ++ "ms is within "
              ++ pyStr max_time ++ "ms", "responseTime", max_time, .float actual_ms⟩
          else
            .ok ⟨false, "Response time " ++ toString (pyRound0 actual_ms) ++ "ms exceeds max "
              ++ pyStr max_time ++ "ms", "responseTime", max_time, .float actual_ms⟩

/-- `evaluate_required_fields(fields, response_data)`.  A field is missing
exactly when `get_nested_value` reports not-found; a resolved `None`
value still counts as present.  The iteration and the `', '.join` can
raise on non-list/non-string configurations. -/
def evaluate_required_fields (fields : JSON) (response_data : JSON) : Except String AssertionResult :=
  match pyIterate fields with
  | .error e => .error e
  | .ok fieldList =>
    let missing_fields := fieldList.filter (fun f => !(get_nested_value response_data f).1)
    if missing_fields.isEmpty then
      match pyJoinComma fieldList with
      | .error e => .error e
      | .ok j => .ok ⟨true, "All required fields present: " ++ j, "requiredFields", fields, .null⟩
    else
      match pyJoinComma missing_fields with
      | .error e => .error e
      | .ok j => .ok ⟨false, "Missing required fields: " ++ j, "requiredFields", fields,
          .arr missing_fields⟩

/-- `evaluate_forbidden_fields(fields, response_data)`: mirror of
`evaluate_required_fields`, failing on the paths that do resolve. -/
def evaluate_forbidden_fields (fields : JSON) (response_data : JSON) : Except String AssertionResult :=
  match pyIterate fields with
  | .error e => .error e
  | .ok fieldList =>
    let found_fields := fieldList.filter (fun f => (get_nested_value response_data f).1)
    if found_fields.isEmpty then
      .ok ⟨true, "No forbidden fields present", "forbiddenFields", fields, .null⟩
    else
      match pyJoinComma found_fields with
      | .error e => .error e
      | .ok j => .ok ⟨false, "Forbidden fields found: " ++ j, "forbiddenFields", fields,
          .arr found_fields⟩

/-- `evaluate_array_length(config, response_data)`: resolves
`config["path"]`, requires a list, then checks the `min` bound before
the `max` bound.  The comparisons raise on non-numeric bounds. -/
def evaluate_array_length (config : JSON) (response_data : JSON) : Except String AssertionResult :=
  match dictGet config "path" with
  | .error e => .error e
  | .ok path =>
    match dictGet config "min" with
    | .error e => .error e
    | .ok min_length =>
      match dictGet config "max" with
      | .error e => .error e
      | .ok max_length =>
        if !pyTruthy path then
          .ok ⟨false, "Array length assertion must have 'path' key", "arrayLength", .null, .null⟩
        else
          match get_nested_value response_data path with
          | (false, _) =>
            .ok ⟨false, "Field '" ++ pyStr path ++ "' not found in response", "arrayLength",
              config, .null⟩
          | (true, value) =>
            match value with
            | .arr xs =>
              let actual_length : Int := xs.length
              let minCheck : Except String Bool :=
                match min_length with
                | .null => .ok false
                | m => pyLTi actual_length m
              match minCheck with
              | .error e => .error e
              | .ok minViol =>
                if minViol then
                  .ok ⟨false, "Array '" ++ pyStr path ++ "' length " ++ toString actual_length
                    ++ " is less than min " ++ pyStr min_length, "arrayLength", config,
                    .int actual_length⟩
                else
                  let maxCheck : Except String Bool :=
                    match max_length with
                    | .null => .ok false
                    | m => pyGTi actual_length m
                  match maxCheck with
                  | .error e => .error e
                  | .ok maxViol =>
                    if maxViol then
                      .ok ⟨false, "Array '" ++ pyStr path ++ "' length " ++ toString actual_length
                        ++ " exceeds max " ++ pyStr max_length, "arrayLength", config,
                        .int actual_length⟩
                    else
                      .ok ⟨true, "Array '" ++ pyStr path ++ "' length " ++ toString actual_length
                        ++ " is valid", "arrayLength", config, .int actual_length⟩
            | v =>
              .ok ⟨false, "Field '" ++ pyStr path ++ "' is not an array (got " ++ pyTypeName v
                ++ ")", "arrayLength", config, .str (pyTypeName v)⟩

/-- `evaluate_field_equals(config, response_data)`: resolves
`config["path"]` and compares with Python `==`. -/
def evaluate_field_equals (config : JSON) (response_data : JSON) : Except String AssertionResult :=
  match dictGet config "path" with
  | .error e => .error e
  | .ok path =>
    match dictGet config "value" with
    | .error e => .error e
    | .ok expected_value =>
      if !pyTruthy path then
        .ok ⟨false, "Field equals assertion must have 'path' key", "fieldEquals", .null, .null⟩
      else
        match get_nested_value response_data path with
        | (false, _) =>
          .ok ⟨false, "Field '" ++ pyStr path ++ "' not found in response", "fieldEquals",
            expected_value, .null⟩
        | (true, actual_value) =>
          if pyEq actual_value expected_value then
            .ok ⟨true, "Field '" ++ pyStr path ++ "' equals '" ++ pyStr expected_value ++ "'",
              "fieldEquals", expected_value, actual_value⟩
          else
            .ok ⟨false, "Field '" ++ pyStr path ++ "' expected '" ++ pyStr expected_value
              ++ "', got '" ++ pyStr actual_value ++ "'", "fieldEquals", expected_value,
              actual_value⟩

/-- Membership of the `type` tag in the `type_mapping` dict: unhashable
tags (lists, dicts) raise `TypeError`; hashable non-strings are simply
not members. -/
def tagHashMem : JSON → Except String Bool
  | .arr _ => .error "TypeError"
  | .obj _ => .error "TypeError"
  | .str s =>
    .ok (s == "string" || s == "number" || s == "boolean" || s == "array" || s == "object"
      || s == "null")
  | _ => .ok false

/-- `isinstance(value, type_mapping[tag])`.  The `"number"` entry is
`(int, float)` and a Python bool is an instance of `int`, so booleans
satisfy `"number"` here, exactly as in the source. -/
def pyIsinstanceTag (tag : String) (v : JSON) : Bool :=
  match tag with
  | "string" => match v with | .str _ => true | _ => false
  | "number" => match v with | .int _ => true | .float _ => true | .bool _ => true | _ => false
  | "boolean" => match v with | .bool _ => true | _ => false
  | "array" => match v with | .arr _ => true | _ => false
  | "object" => match v with | .obj _ => true | _ => false
  | "null" => match v with | .null => true | _ => false
  | _ => false

/-- `evaluate_field_type(config, response_data)`. -/
def evaluate_field_type (config : JSON) (response_data : JSON) : Except String AssertionResult :=
  match dictGet config "path" with
  | .error e => .error e
  | .ok path =>
    match dictGet config "type" with
    | .error e => .error e
    | .ok expected_type =>
      if !pyTruthy path || !pyTruthy expected_type then
        .ok ⟨false, "Field type assertion must have 'path' and 'type' keys", "fieldType",
          .null, .null⟩
      else
        match get_nested_value response_data path with
        | (false, _) =>
          .ok ⟨false, "Field '" ++ pyStr path ++ "' not found in response", "fieldType",
            expected_type, .null⟩
        | (true, value) =>
          match tagHashMem expected_type with
          | .error e => .error e
          | .ok isTag =>
            if !isTag then
              .ok ⟨false, "Invalid type '" ++ pyStr expected_type
                ++ "'. Must be one of: ['string', 'number', 'boolean', 'array', 'object', 'null']",
                "fieldType", .null, .null⟩
            else
              match expected_type with
              | .str tag =>
                let actual_type_name := pyTypeName value
                if pyIsinstanceTag tag value then
                  .ok ⟨true, "Field '" ++ pyStr path ++ "' is of type '" ++ tag ++ "'",
                    "fieldType", expected_type, .str actual_type_name⟩
                else
                  .ok ⟨false, "Field '" ++ pyStr path ++ "' expected type '" ++ tag ++ "', got '"
                    ++ actual_type_name ++ "'", "fieldType", expected_type, .str actual_type_name⟩
              | _ =>
                -- unreachable: `tagHashMem` only accepts string tags
                .ok ⟨false, "Invalid type '" ++ pyStr expected_type
                  ++ "'. Must be one of: ['string', 'number', 'boolean', 'array', 'object', 'null']",
                  "fieldType", .null, .null⟩

/-- The loop of `evaluate_structure`: one `evaluate_field_type` call per
schema entry, collecting `"field: message"` for each failing entry in
order. -/
def structLoop (response_data : JSON) : List (String × JSON) → Except String (List String)
  | [] => .ok []
  | (field, t) :: rest =>
    match evaluate_field_type (.obj [("path", .str field), ("type", t)]) response_data with
    | .error e => .error e
    | .ok r =>
      match structLoop response_data rest with
      | .error e => .error e
      | .ok es => .ok (if r.passed then es else (field ++ ": " ++ r.message) :: es)

/-- `evaluate_structure(schema, response_data)`. -/
def evaluate_structure (schema : JSON) (response_data : JSON) : Except String AssertionResult :=
  if !pyTruthy schema then
    .ok ⟨false, "Structure assertion must have schema definition", "hasStructure", .null, .null⟩
  else
    match dictItems schema with
    | .error e => .error e
    | .ok fs =>
      match structLoop response_data fs with
      | .error e => .error e
      | .ok errors =>
        if errors.isEmpty then
          .ok ⟨true, "Response structure matches schema (" ++ toString fs.length
            ++ " fields validated)", "hasStructure", schema, .null⟩
        else
          .ok ⟨false, "Structure validation failed: " ++ joinWith "; " errors, "hasStructure",
            schema, .arr (errors.map (fun e => .str e))⟩

-- The orchestrator.

/-- One `if kind in assertions and assertions[kind] is not None:
results.append(evaluator(assertions[kind], ...))` block. -/
def appendKind (assertions : List (String × JSON)) (k : String)
    (f : JSON → Except String AssertionResult) (results : List AssertionResult) :
    Except String (List AssertionResult) :=
  match jLookup k assertions with
  | some .null => .ok results
  | some v =>
    match f v with
    | .error e => .error e
    | .ok r => .ok (results ++ [r])
  | none => .ok results

/-- `evaluate_all_assertions(assertions, response_data, status_code,
response_time_ms)`: the eight kind blocks in source order. -/
def evaluate_all_assertions (assertions : List (String × JSON)) (response_data : JSON)
    (status_code : Int) (response_time_ms : ℚ) : Except String (List AssertionResult) :=
  match appendKind assertions "statusCode" (fun c => evaluate_status_code c status_code) [] with
  | .error e => .error e
  | .ok r1 =>
    match appendKind assertions "responseTime" (fun c => evaluate_response_time c response_time_ms) r1 with
    | .error e => .error e
    | .ok r2 =>
      match appendKind assertions "requiredFields" (fun c => evaluate_required_fields c response_data) r2 with
      | .error e => .error e
      | .ok r3 =>
        match appendKind assertions "forbiddenFields" (fun c => evaluate_forbidden_fields c response_data) r3 with
        | .error e => .error e
        | .ok r4 =>
          match appendKind assertions "arrayLength" (fun c => evaluate_array_length c response_data) r4 with
          | .error e => .error e
          | .ok r5 =>
            match appendKind assertions "fieldEquals" (fun c => evaluate_field_equals c response_data) r5 with
            | .error e => .error e
            | .ok r6 =>
              match appendKind assertions "fieldType" (fun c => evaluate_field_type c response_data) r6 with
              | .error e => .error e
              | .ok r7 =>
                match appendKind assertions "hasStructure" (fun c => evaluate_structure c response_data) r7 with
                | .error e => .error e
                | .ok r8 => .ok r8

/-- `get_overall_result(assertion_results)`. -/
def get_overall_result (assertion_results : List AssertionResult) : Bool × Option String :=
  if assertion_results.isEmpty then (true, none)
  else
    let failed := assertion_results.filter (fun r => !r.passed)
    if failed.isEmpty then (true, none)
    else (false, some (joinWith "; " (failed.map (fun r => r.message))))

-- Definitions used to state the claims.

/-- The resolution-failure cases enumerated by the spec for one step of
the Path Resolver: "a key is absent, an index is out of bounds, an index
is applied to a non-sequence, or a key lookup is applied to a
non-mapping" (the sequence types being lists and strings). -/
def resolveFailureCase (v : JSON) (k : String) : Bool :=
  if pyIsDigit k then
    match v with
    | .arr xs => decide (xs.length ≤ digitsToNat k)
    | .str s => decide (s.data.length ≤ digitsToNat k)
    | _ => true
  else
    match v with
    | .obj fs => (jLookup k fs).isNone
    | _ => true

/-- The eight assertion kinds in the fixed declaration order of the spec
and the source. -/
def kindOrder : List String :=
  ["statusCode", "responseTime", "requiredFields", "forbiddenFields", "arrayLength",
   "fieldEquals", "fieldType", "hasStructure"]

/-- The evaluator belonging to a kind, applied to that kind's
configuration and the response context. -/
def dispatchKind (response_data : JSON) (status_code : Int) (response_time_ms : ℚ)
    (k : String) (c : JSON) : Except String AssertionResult :=
  match k with
  | "statusCode" => evaluate_status_code c status_code
  | "responseTime" => evaluate_response_time c response_time_ms
  | "requiredFields" => evaluate_required_fields c response_data
  | "forbiddenFields" => evaluate_forbidden_fields c response_data
  | "arrayLength" => evaluate_array_length c response_data
  | "fieldEquals" => evaluate_field_equals c response_data
  | "fieldType" => evaluate_field_type c response_data
  | "hasStructure" => evaluate_structure c response_data
  | _ => .ok ⟨false, "", "", .null, .null⟩

/-- The configuration of a kind when the kind is present and non-null in
the rule set, `none` otherwise. -/
def presentEntry (assertions : List (String × JSON)) (k : String) : Option JSON :=
  match jLookup k assertions with
  | some .null => none
  | some v => some v
  | none => none

/-- The rules the orchestrator is specified to run: the kinds present
and non-null in the rule set, in declaration order, paired with their
configurations. -/
def activeRules (assertions : List (String × JSON)) : List (String × JSON) :=
  kindOrder.filterMap (fun k => (presentEntry assertions k).map (fun v => (k, v)))

/-- Error-propagating map, the verdict-list view of sequential
`results.append` calls. -/
def mapE {α β : Type} (f : α → Except String β) : List α → Except String (List β)
  | [] => .ok []
  | x :: xs =>
    match f x with
    | .error e => .error e
    | .ok y =>
      match mapE f xs with
      | .error e => .error e
      | .ok ys => .ok (y :: ys)

/-- The kind/evaluator blocks of `evaluate_all_assertions` as data, in
source order. -/
def kindSteps (response_data : JSON) (status_code : Int) (response_time_ms : ℚ) :
    List (String × (JSON → Except String AssertionResult)) :=
  [("statusCode", fun c => evaluate_status_code c status_code),
   ("responseTime", fun c => evaluate_response_time c response_time_ms),
   ("requiredFields", fun c => evaluate_required_fields c response_data),
   ("forbiddenFields", fun c => evaluate_forbidden_fields c response_data),
   ("arrayLength", fun c => evaluate_array_length c response_data),
   ("fieldEquals", fun c => evaluate_field_equals c response_data),
   ("fieldType", fun c => evaluate_field_type c response_data),
   ("hasStructure", fun c => evaluate_structure c response_data)]

/-- Sequential execution of kind blocks: the loop view of
`evaluate_all_assertions`. -/
def runSteps (assertions : List (String × JSON)) (results : List AssertionResult) :
    List (String × (JSON → Except String AssertionResult)) → Except String (List AssertionResult)
  | [] => .ok results
  | (k, f) :: rest =>
    match appendKind assertions k f results with
    | .error e => .error e
    | .ok results' => runSteps assertions results' rest

/-- The kind blocks that will actually run, with their configurations. -/
def presentSteps (assertions : List (String × JSON))
    (steps : List (String × (JSON → Except String AssertionResult))) :
    List (JSON × (JSON → Except String AssertionResult)) :=
  steps.filterMap (fun p => (presentEntry assertions p.1).map (fun v => (v, p.2)))

-- Claim C1.

/-- C1 (refuting evidence): contrary to the claim's totality statement,
the two malformed configurations it names make the evaluators raise
instead of returning a verdict: `evaluate_status_code` with config
`\x7b"in": 5\x7d` raises `TypeError` at `actual in allowed`, and
`evaluate_response_time` with a non-numeric `max` raises `TypeError` at
`actual_ms <= max_time`. -/
theorem evaluators_raise_on_malformed_config :
    evaluate_status_code (.obj [("in", .int 5)]) 404 = .error "TypeError"
    ∧ evaluate_response_time (.obj [("max", .str "soon")]) 2500 = .error "TypeError" := by
  constructor
  · rfl
  · simp [evaluate_response_time, pyContains, pyEq, pySubscript, jLookup, pyLEq, asNum]

-- Claim C2.

/-- C2 (refuting evidence): a boolean value passes the `"number"` type
check with `passed = true`, because `isinstance(True, (int, float))`
holds in Python (bool is a subclass of int); the claim and the spec
require `passed = false` here. -/
theorem fieldType_number_accepts_bool :
    evaluate_field_type (.obj [("path", .str "flag"), ("type", .str "number")])
      (.obj [("flag", .bool true)])
    = .ok ⟨true, "Field 'flag' is of type 'number'", "fieldType", .str "number", .str "bool"⟩ := rfl

-- Claim C3.

/-- C3 counterexample: with the path resolving to boolean `true` and the
config value integer `1`, `evaluate_field_equals` returns
`passed = true` (Python `True == 1` is true), refuting the claimed
`passed = false`. -/
theorem fieldEquals_bool_vs_int_passes :
    evaluate_field_equals (.obj [("path", .str "status"), ("value", .int 1)])
      (.obj [("status", .bool true)])
    = .ok ⟨true, "Field 'status' equals '1'", "fieldEquals", .int 1, .bool true⟩ := by
  have he : pyEq (.bool true) (.int 1) = true := by simp [pyEq, scalarEq, asNum]
  have hs : pyStr (.int 1) = "1" := by
    simp [pyStr, pyRepr]
    try decide
  simp [evaluate_field_equals, dictGet, jLookup, pyTruthy, get_nested_value, pathKeys,
    normPathChars, splitDot, walk, step, pyIsDigit, he, hs]
  rfl

/-- C3 (amended): when the path resolves, `evaluate_field_equals` passes
under the implementation language's value equality, under which boolean
`true` equals integer `1`: whenever the path resolves to boolean `true`
and the config value is integer `1` (or vice versa), the verdict has
`passed = true`. -/
theorem fieldEquals_bool_int_value_equality :
    ∀ (p : String) (data : JSON), p ≠ "" →
      (walk data (pathKeys p) = some (.bool true) →
        evaluate_field_equals (.obj [("path", .str p), ("value", .int 1)]) data
        = .ok ⟨true, "Field '" ++ p ++ "' equals '" ++ "1" ++ "'", "fieldEquals",
            .int 1, .bool true⟩)
      ∧ (walk data (pathKeys p) = some (.int 1) →
        evaluate_field_equals (.obj [("path", .str p), ("value", .bool true)]) data
        = .ok ⟨true, "Field '" ++ p ++ "' equals '" ++ "True" ++ "'", "fieldEquals",
            .bool true, .int 1⟩) := by
  intro p data hp
  have hn : (p != "") = true := by simpa using hp
  constructor
  · intro hw
    have he : pyEq (.bool true) (.int 1) = true := by simp [pyEq, scalarEq, asNum]
    simp [evaluate_field_equals, dictGet, jLookup, get_nested_value, pyTruthy, hw, hn, he,
      pyStr, pyRepr]
    try rfl
  · intro hw
    have he : pyEq (.int 1) (.bool true) = true := by simp [pyEq, scalarEq, asNum]
    simp [evaluate_field_equals, dictGet, jLookup, get_nested_value, pyTruthy, hw, hn, he,
      pyStr, pyRepr]
    try rfl

/-- C3 witness: the amended statement at a concrete response. -/
theorem fieldEquals_bool_int_value_equality_witness :
    evaluate_field_equals (.obj [("path", .str "status"), ("value", .int 1)])
      (.obj [("status", .bool true)])
    = .ok ⟨true, "Field '" ++ "status" ++ "' equals '" ++ "1" ++ "'", "fieldEquals",
        .int 1, .bool true⟩ :=
  (fieldEquals_bool_int_value_equality "status" (.obj [("status", .bool true)])
    (by decide)).1 rfl

-- Claim C10.

/-- C10: `evaluate_field_equals` uses value equality across numeric
subtypes: whenever the path resolves to a float numerically equal to the
integer config value (or the other way round), the verdict has
`passed = true`. -/
theorem fieldEquals_numeric_value_equality :
    ∀ (p : String) (data : JSON) (n : Int) (q : ℚ), p ≠ "" → q = (n : ℚ) →
      (walk data (pathKeys p) = some (.float q) →
        evaluate_field_equals (.obj [("path", .str p), ("value", .int n)]) data
        = .ok ⟨true, "Field '" ++ p ++ "' equals '" ++ pyStr (.int n) ++ "'", "fieldEquals",
            .int n, .float q⟩)
      ∧ (walk data (pathKeys p) = some (.int n) →
        evaluate_field_equals (.obj [("path", .str p), ("value", .float q)]) data
        = .ok ⟨true, "Field '" ++ p ++ "' equals '" ++ pyStr (.float q) ++ "'", "fieldEquals",
            .float q, .int n⟩) := by
  intro p data n q hp hq
  have hn : (p != "") = true := by simpa using hp
  constructor
  · intro hw
    have he : pyEq (.float q) (.int n) = true := by simp [pyEq, scalarEq, asNum, hq]
    simp [evaluate_field_equals, dictGet, jLookup, get_nested_value, pyTruthy, hw, hn, he, pyStr]
  · intro hw
    have he : pyEq (.int n) (.float q) = true := by simp [pyEq, scalarEq, asNum, hq]
    simp [evaluate_field_equals, dictGet, jLookup, get_nested_value, pyTruthy, hw, hn, he, pyStr]

/-- C10 witness: the float `5.0` equals the integer `5`. -/
theorem fieldEquals_numeric_value_equality_witness :
    evaluate_field_equals (.obj [("path", .str "price"), ("value", .int 5)])
      (.obj [("price", .float 5)])
    = .ok ⟨true, "Field '" ++ "price" ++ "' equals '" ++ pyStr (.int 5) ++ "'", "fieldEquals",
        .int 5, .float 5⟩ :=
  (fieldEquals_numeric_value_equality "price" (.obj [("price", .float 5)]) 5 5
    (by decide) (by norm_num)).1 rfl

-- Claim C4.

/-- C4: `get_nested_value` is total (it is a function into
`Bool × JSON`), one resolution step fails exactly on the spec's
enumerated failure cases, a successful walk yields `(true, value)`, and
a failed walk yields `(false, null)` with no exception escaping. -/
theorem get_nested_value_total_spec :
    (∀ (v : JSON) (k : String), (step v k).isNone = resolveFailureCase v k)
    ∧ (∀ (data : JSON) (path : String) (v : JSON),
        walk data (pathKeys path) = some v → get_nested_value data (.str path) = (true, v))
    ∧ (∀ (data : JSON) (path : String),
        walk data (pathKeys path) = none → get_nested_value data (.str path) = (false, .null)) := by
  refine ⟨?_, ?_, ?_⟩
  · intro v k
    unfold step resolveFailureCase
    by_cases hd : pyIsDigit k = true
    · simp only [hd, if_true]
      cases v with
      | arr xs =>
        show (xs.get? (digitsToNat k)).isNone = decide (xs.length ≤ digitsToNat k)
        by_cases hl : xs.length ≤ digitsToNat k
        · rw [List.get?_eq_none.mpr hl]
          exact (decide_eq_true hl).symm
        · rw [Nat.not_le] at hl
          rw [List.get?_eq_get hl]
          exact (decide_eq_false (by omega)).symm
      | str s =>
        show ((s.data.get? (digitsToNat k)).map _).isNone
          = decide (s.data.length ≤ digitsToNat k)
        rw [Option.isNone_map']
        by_cases hl : s.data.length ≤ digitsToNat k
        · rw [List.get?_eq_none.mpr hl]
          exact (decide_eq_true hl).symm
        · rw [Nat.not_le] at hl
          rw [List.get?_eq_get hl]
          exact (decide_eq_false (by omega)).symm
      | null => rfl
      | bool b => rfl
      | int n => rfl
      | float q => rfl
      | obj fs => rfl
    · simp only [hd, if_false]
      cases v with
      | obj fs => rfl
      | null => rfl
      | bool b => rfl
      | int n => rfl
      | float q => rfl
      | str s => rfl
      | arr xs => rfl
  · intro data path v hw
    simp [get_nested_value, hw]
  · intro data path hw
    simp [get_nested_value, hw]

/-- C4 witness: a successful walk at a concrete response. -/
theorem get_nested_value_total_spec_witness :
    get_nested_value (.obj [("a", .arr [.int 7])]) (.str "a[0]") = (true, .int 7) :=
  get_nested_value_total_spec.2.1 (.obj [("a", .arr [.int 7])]) "a[0]" (.int 7) rfl

-- Claim C5.

theorem normPathChars_append (a b : List Char) :
    normPathChars (a ++ b) = normPathChars a ++ normPathChars b := by
  simp [normPathChars, List.filter_append]

theorem normPathChars_digits :
    ∀ cs : List Char, (∀ c ∈ cs, c.isDigit = true) → normPathChars cs = cs := by
  intro cs h
  induction cs with
  | nil => rfl
  | cons c rest ih =>
    have hc := h c (by simp)
    have hrest := ih (fun c' hc' => h c' (by simp [hc']))
    have h1 : (c == '[') = false := by
      cases hq : c == '['
      · rfl
      · exfalso
        rw [eq_of_beq hq] at hc
        exact absurd hc (by decide)
    have h2 : (c != ']') = true := by
      cases hq : c == ']'
      · simp [bne, hq]
      · exfalso
        rw [eq_of_beq hq] at hc
        exact absurd hc (by decide)
    simp only [normPathChars, List.map_cons, h1, Bool.false_eq_true, if_false,
      List.filter_cons, h2, if_true]
    simp only [normPathChars] at hrest
    rw [hrest]

/-- C5: a bracket index segment `[digits]` resolves identically to the
same digits written as a dotted segment, for every root value and
surrounding path; in particular `a.b[0].c` and `a.b.0.c` resolve
identically against every root value. -/
theorem bracket_index_equiv :
    (∀ (v : JSON) (pre d post : String), (∀ c ∈ d.data, c.isDigit = true) →
      get_nested_value v (.str (pre ++ "[" ++ d ++ "]" ++ post))
        = get_nested_value v (.str (pre ++ "." ++ d ++ post)))
    ∧ ∀ v : JSON, get_nested_value v (.str "a.b[0].c") = get_nested_value v (.str "a.b.0.c") := by
  constructor
  · intro v pre d post hd
    have hdata : ∀ (x y : String), (x ++ y).data = x.data ++ y.data := fun _ _ => rfl
    have hL : normPathChars "[".data = ['.'] := rfl
    have hR : normPathChars "]".data = [] := rfl
    have hDot : normPathChars ".".data = ['.'] := rfl
    have hkey : pathKeys (pre ++ "[" ++ d ++ "]" ++ post) = pathKeys (pre ++ "." ++ d ++ post) := by
      unfold pathKeys
      simp only [hdata, normPathChars_append, hL, hR, hDot, normPathChars_digits d.data hd]
      simp
    show (match walk v (pathKeys (pre ++ "[" ++ d ++ "]" ++ post)) with
          | some w => (true, w)
          | none => (false, JSON.null))
        = match walk v (pathKeys (pre ++ "." ++ d ++ post)) with
          | some w => (true, w)
          | none => (false, JSON.null)
    rw [hkey]
  · intro v
    rfl

/-- C5 witness: the spec's own pair of equivalent paths at a concrete
nested value. -/
theorem bracket_index_equiv_witness :
    get_nested_value (.obj [("a", .obj [("b", .arr [.obj [("c", .int 7)]])])])
      (.str ("a.b" ++ "[" ++ "0" ++ "]" ++ ".c"))
    = get_nested_value (.obj [("a", .obj [("b", .arr [.obj [("c", .int 7)]])])])
      (.str ("a.b" ++ "." ++ "0" ++ ".c")) :=
  bracket_index_equiv.1 (.obj [("a", .obj [("b", .arr [.obj [("c", .int 7)]])])])
    "a.b" "0" ".c" (by decide)

-- Claim C6.

theorem strOnly_map_str : ∀ ss : List String, strOnly (ss.map (fun s => .str s)) = .ok ss := by
  intro ss
  induction ss with
  | nil => rfl
  | cons s rest ih => simp [strOnly, ih]

theorem pyJoinComma_map_str (ss : List String) :
    pyJoinComma (ss.map (fun s => .str s)) = .ok (joinWith ", " ss) := by
  simp [pyJoinComma, strOnly_map_str]

theorem isEmpty_map {α β : Type} (f : α → β) (l : List α) : (l.map f).isEmpty = l.isEmpty := by
  cases l <;> rfl

/-- C6: `evaluate_required_fields` passes iff every listed path resolves
against the response body (a path resolving to `null` still resolves, so
it counts as present); on failure the message lists exactly the
unresolved paths, comma-joined, in input order, with `expected` the full
input list and `actual` the missing subset. -/
theorem required_fields_spec :
    ∀ (fields : List String) (data : JSON),
      evaluate_required_fields (.arr (fields.map (fun f => .str f))) data
        = .ok
          { passed := (fields.filter (fun f => !(get_nested_value data (.str f)).1)).isEmpty
            message :=
              if (fields.filter (fun f => !(get_nested_value data (.str f)).1)).isEmpty then
                "All required fields present: " ++ joinWith ", " fields
              else
                "Missing required fields: "
                  ++ joinWith ", " (fields.filter (fun f => !(get_nested_value data (.str f)).1))
            assertion_type := "requiredFields"
            expected := .arr (fields.map (fun f => .str f))
            actual :=
              if (fields.filter (fun f => !(get_nested_value data (.str f)).1)).isEmpty then .null
              else .arr ((fields.filter (fun f => !(get_nested_value data (.str f)).1)).map
                (fun f => .str f)) }
      ∧ ((fields.filter (fun f => !(get_nested_value data (.str f)).1)).isEmpty = true
          ↔ ∀ f ∈ fields, (get_nested_value data (.str f)).1 = true) := by
  intro fields data
  have hfm : (fields.map (fun f => JSON.str f)).filter (fun f => !(get_nested_value data f).1)
      = (fields.filter (fun f => !(get_nested_value data (.str f)).1)).map (fun f => .str f) := by
    rw [List.filter_map]
    rfl
  constructor
  · unfold evaluate_required_fields
    rw [show pyIterate (.arr (fields.map fun f => .str f)) = .ok (fields.map fun f => .str f)
      from rfl]
    dsimp only
    rw [hfm, isEmpty_map]
    by_cases hpass : (fields.filter (fun f => !(get_nested_value data (.str f)).1)).isEmpty = true
    · simp [hpass, pyJoinComma_map_str]
    · rw [Bool.not_eq_true] at hpass
      simp [hpass, pyJoinComma_map_str]
  · rw [List.isEmpty_iff, List.filter_eq_nil_iff]
    constructor
    · intro h f hf
      have := h f hf
      simpa using this
    · intro h f hf
      simp [h f hf]

/-- C6 witness: one present and one missing path at a concrete
response. -/
theorem required_fields_spec_witness :
    evaluate_required_fields
      (.arr (["customers", "metadata.totalCount"].map (fun f => .str f)))
      (.obj [("customers", .arr [])])
    = .ok
      { passed := false
        message := "Missing required fields: " ++ joinWith ", " ["metadata.totalCount"]
        assertion_type := "requiredFields"
        expected := .arr (["customers", "metadata.totalCount"].map (fun f => .str f))
        actual := .arr (["metadata.totalCount"].map (fun f => .str f)) } :=
  (required_fields_spec ["customers", "metadata.totalCount"] (.obj [("customers", .arr [])])).1

-- Claim C7.

/-- C7: `get_overall_result` returns `(true, none)` when the list is
empty or every verdict passed, and otherwise `(false, some reason)`
where the reason is the messages of exactly the failing verdicts, in
list order, joined with `"; "`. -/
theorem overall_result_spec :
    ∀ rs : List AssertionResult,
      get_overall_result rs
        = if rs.all (fun r => r.passed) then (true, none)
          else (false, some (joinWith "; "
            ((rs.filter (fun r => !r.passed)).map (fun r => r.message)))) := by
  intro rs
  unfold get_overall_result
  by_cases he : rs.isEmpty = true
  · rw [List.isEmpty_iff] at he
    subst he
    simp
  · by_cases hf : (rs.filter (fun r => !r.passed)).isEmpty = true
    · have hall : rs.all (fun r => r.passed) = true := by
        rw [List.isEmpty_iff, List.filter_eq_nil_iff] at hf
        rw [List.all_eq_true]
        intro r hr
        have := hf r hr
        simpa using this
      simp [he, hf, hall]
    · have hall : rs.all (fun r => r.passed) = false := by
        rw [Bool.eq_false_iff]
        intro hA
        apply hf
        rw [List.isEmpty_iff, List.filter_eq_nil_iff]
        intro r hr
        rw [List.all_eq_true] at hA
        simp [hA r hr]
      simp [he, hf, hall]

-- Claim C9.

/-- C9: when the path resolves to a list, `evaluate_array_length` checks
the min bound before the max bound — if both are violated (possible when
min > max) the min-bound message wins — length < min fails on min,
length > max fails on max, and otherwise the verdict passes reporting
the measured length; a resolved non-list value fails with a message
naming the actual runtime type. -/
theorem array_length_bounds_spec :
    ∀ (p : String) (mi ma : Int) (data : JSON), p ≠ "" →
      (∀ xs : List JSON, walk data (pathKeys p) = some (.arr xs) →
        evaluate_array_length (.obj [("path", .str p), ("min", .int mi), ("max", .int ma)]) data
          = .ok (
            if (xs.length : Int) < mi then
              ⟨false, "Array '" ++ p ++ "' length " ++ toString (xs.length : Int)
                ++ " is less than min " ++ toString mi, "arrayLength",
                .obj [("path", .str p), ("min", .int mi), ("max", .int ma)],
                .int (xs.length : Int)⟩
            else if (xs.length : Int) > ma then
              ⟨false, "Array '" ++ p ++ "' length " ++ toString (xs.length : Int)
                ++ " exceeds max " ++ toString ma, "arrayLength",
                .obj [("path", .str p), ("min", .int mi), ("max", .int ma)],
                .int (xs.length : Int)⟩
            else
              ⟨true, "Array '" ++ p ++ "' length " ++ toString (xs.length : Int)
                ++ " is valid", "arrayLength",
                .obj [("path", .str p), ("min", .int mi), ("max", .int ma)],
                .int (xs.length : Int)⟩))
      ∧ (∀ xs : List JSON, walk data (pathKeys p) = some (.arr xs) →
          (xs.length : Int) < mi → (xs.length : Int) > ma →
          evaluate_array_length (.obj [("path", .str p), ("min", .int mi), ("max", .int ma)]) data
            = .ok ⟨false, "Array '" ++ p ++ "' length " ++ toString (xs.length : Int)
                ++ " is less than min " ++ toString mi, "arrayLength",
                .obj [("path", .str p), ("min", .int mi), ("max", .int ma)],
                .int (xs.length : Int)⟩)
      ∧ (∀ w : JSON, walk data (pathKeys p) = some w → pyTypeName w ≠ "list" →
          evaluate_array_length (.obj [("path", .str p), ("min", .int mi), ("max", .int ma)]) data
            = .ok ⟨false, "Field '" ++ p ++ "' is not an array (got " ++ pyTypeName w ++ ")",
                "arrayLength", .obj [("path", .str p), ("min", .int mi), ("max", .int ma)],
                .str (pyTypeName w)⟩) := by
  intro p mi ma data hp
  have hn : (p != "") = true := by simpa using hp
  have hsm : pyRepr (JSON.int mi) = toString mi := by simp [pyRepr]
  have hsM : pyRepr (JSON.int ma) = toString ma := by simp [pyRepr]
  have hLT : ∀ a b : Int, pyLTi a (.int b) = .ok (decide (a < b)) := by
    intro a b
    show Except.ok (decide ((a : ℚ) < (b : ℚ))) = Except.ok (decide (a < b))
    rw [decide_eq_decide.mpr Int.cast_lt]
  have hGT : ∀ a b : Int, pyGTi a (.int b) = .ok (decide (b < a)) := by
    intro a b
    show Except.ok (decide ((b : ℚ) < (a : ℚ))) = Except.ok (decide (b < a))
    rw [decide_eq_decide.mpr Int.cast_lt]
  have hmain : ∀ xs : List JSON, walk data (pathKeys p) = some (.arr xs) →
      evaluate_array_length (.obj [("path", .str p), ("min", .int mi), ("max", .int ma)]) data
        = .ok (
          if (xs.length : Int) < mi then
            ⟨false, "Array '" ++ p ++ "' length " ++ toString (xs.length : Int)
              ++ " is less than min " ++ toString mi, "arrayLength",
              .obj [("path", .str p), ("min", .int mi), ("max", .int ma)],
              .int (xs.length : Int)⟩
          else if (xs.length : Int) > ma then
            ⟨false, "Array '" ++ p ++ "' length " ++ toString (xs.length : Int)
              ++ " exceeds max " ++ toString ma, "arrayLength",
              .obj [("path", .str p), ("min", .int mi), ("max", .int ma)],
              .int (xs.length : Int)⟩
          else
            ⟨true, "Array '" ++ p ++ "' length " ++ toString (xs.length : Int)
              ++ " is valid", "arrayLength",
              .obj [("path", .str p), ("min", .int mi), ("max", .int ma)],
              .int (xs.length : Int)⟩) := by
    intro xs hw
    unfold evaluate_array_length
    simp only [dictGet, jLookup]
    norm_num
    simp only [pyTruthy, hn, Bool.not_true, Bool.false_eq_true, if_false,
      get_nested_value, hw]
    by_cases hmin : (xs.length : Int) < mi
    · simp [hmin, hLT, hGT, pyStr, hsm, hsM]
    · by_cases hmax : ma < (xs.length : Int)
      · simp [hmin, hmax, hLT, hGT, pyStr, hsm, hsM]
      · simp [hmin, hmax, hLT, hGT, pyStr, hsm, hsM]
  refine ⟨hmain, ?_, ?_⟩
  · intro xs hw h1 h2
    rw [hmain xs hw, if_pos h1]
  · intro w hw hnl
    unfold evaluate_array_length
    simp only [dictGet, jLookup]
    norm_num
    simp only [pyTruthy, hn, Bool.not_true, Bool.false_eq_true, if_false,
      get_nested_value, hw]
    cases w with
    | arr xs => exact absurd rfl hnl
    | null => rfl
    | bool b => rfl
    | int n => rfl
    | float q => rfl
    | str s => rfl
    | obj fs => rfl

/-- C9 witness: with `min 5`, `max 1` and a resolved list of length 3
both bounds are violated and the min-bound message is the one
reported. -/
theorem array_length_bounds_spec_witness :
    evaluate_array_length
      (.obj [("path", .str "items"), ("min", .int 5), ("max", .int 1)])
      (.obj [("items", .arr [.int 1, .int 2, .int 3])])
    = .ok ⟨false, "Array 'items' length 3 is less than min 5", "arrayLength",
        .obj [("path", .str "items"), ("min", .int 5), ("max", .int 1)], .int 3⟩ :=
  (array_length_bounds_spec "items" 5 1 (.obj [("items", .arr [.int 1, .int 2, .int 3])])
    (by decide)).2.1 [.int 1, .int 2, .int 3] rfl (by decide) (by decide)

-- Claim C8.

theorem appendKind_eq (a : List (String × JSON)) (k : String)
    (f : JSON → Except String AssertionResult) (results : List AssertionResult) :
    appendKind a k f results
      = match presentEntry a k with
        | some v =>
          (match f v with
           | .error e => .error e
           | .ok r => .ok (results ++ [r]))
        | none => .ok results := by
  unfold appendKind presentEntry
  cases hk : jLookup k a with
  | none => rfl
  | some v => cases v <;> simp

theorem presentSteps_cons (a : List (String × JSON)) (k : String)
    (f : JSON → Except String AssertionResult)
    (rest : List (String × (JSON → Except String AssertionResult))) :
    presentSteps a ((k, f) :: rest)
      = match presentEntry a k with
        | some v => (v, f) :: presentSteps a rest
        | none => presentSteps a rest := by
  cases hp : presentEntry a k <;> simp [presentSteps, List.filterMap_cons, hp]

theorem runSteps_spec (a : List (String × JSON)) :
    ∀ (steps : List (String × (JSON → Except String AssertionResult)))
      (results : List AssertionResult),
      runSteps a results steps
        = match mapE (fun p => p.2 p.1) (presentSteps a steps) with
          | .ok rs => .ok (results ++ rs)
          | .error e => .error e := by
  intro steps
  induction steps with
  | nil => intro results; simp [runSteps, presentSteps, mapE]
  | cons step rest ih =>
    intro results
    obtain ⟨k, f⟩ := step
    rw [show runSteps a results ((k, f) :: rest)
        = (match appendKind a k f results with
           | .error e => .error e
           | .ok results' => runSteps a results' rest) from rfl]
    rw [appendKind_eq, presentSteps_cons]
    cases hp : presentEntry a k with
    | none => exact ih results
    | some v =>
      simp only [mapE]
      cases hf : f v with
      | error e => rfl
      | ok r =>
        dsimp only
        rw [ih (results ++ [r])]
        cases hm : mapE (fun p => p.2 p.1) (presentSteps a rest) with
        | error e => rfl
        | ok rs => simp

theorem mapE_dispatch_bridge (a : List (String × JSON)) (d : JSON) (sc : Int) (rt : ℚ) :
    ∀ ks : List String,
      mapE (fun p => p.2 p.1)
        (presentSteps a (ks.map (fun k => (k, fun c => dispatchKind d sc rt k c))))
      = mapE (fun p => dispatchKind d sc rt p.1 p.2)
        (ks.filterMap (fun k => (presentEntry a k).map (fun v => (k, v)))) := by
  intro ks
  induction ks with
  | nil => rfl
  | cons k rest ih =>
    rw [List.map_cons, presentSteps_cons, List.filterMap_cons]
    cases hp : presentEntry a k with
    | none => simpa using ih
    | some v =>
      simp only [Option.map_some']
      simp only [mapE]
      rw [ih]

/-- C8: `evaluate_all_assertions` produces one verdict per kind that is
present and non-null in the rule set, obtained from that kind's
evaluator, in the fixed declaration order `statusCode, responseTime,
requiredFields, forbiddenFields, arrayLength, fieldEquals, fieldType,
hasStructure`; an absent or null kind contributes no verdict, so a rule
set with all eight kinds absent or null yields the empty list. -/
theorem evaluate_all_order_spec :
    ∀ (a : List (String × JSON)) (d : JSON) (sc : Int) (rt : ℚ),
      evaluate_all_assertions a d sc rt
        = mapE (fun p => dispatchKind d sc rt p.1 p.2) (activeRules a)
      ∧ (activeRules a = [] → evaluate_all_assertions a d sc rt = .ok []) := by
  intro a d sc rt
  have h1 : evaluate_all_assertions a d sc rt = runSteps a [] (kindSteps d sc rt) := rfl
  have h3 : kindSteps d sc rt
      = kindOrder.map (fun k => (k, fun c => dispatchKind d sc rt k c)) := rfl
  have hmain : evaluate_all_assertions a d sc rt
      = mapE (fun p => dispatchKind d sc rt p.1 p.2) (activeRules a) := by
    rw [h1, runSteps_spec a (kindSteps d sc rt) [], h3,
      mapE_dispatch_bridge a d sc rt kindOrder]
    show (match mapE (fun p => dispatchKind d sc rt p.1 p.2) (activeRules a) with
          | .ok rs => Except.ok ([] ++ rs)
          | .error e => Except.error e)
        = mapE (fun p => dispatchKind d sc rt p.1 p.2) (activeRules a)
    cases hm : mapE (fun p => dispatchKind d sc rt p.1 p.2) (activeRules a) with
    | error e => rfl
    | ok rs => simp
  refine ⟨hmain, ?_⟩
  intro hempty
  rw [hmain, hempty]
  rfl

/-- C8 witness: a rule set whose only entries are null contributes no
verdicts and yields the empty list. -/
theorem evaluate_all_order_spec_witness :
    evaluate_all_assertions [("statusCode", .null), ("fieldType", .null)] (.obj []) 200 100
    = .ok [] :=
  (evaluate_all_order_spec [("statusCode", .null), ("fieldType", .null)] (.obj []) 200 100).2 rfl

-- Further checks from the spec's testable-properties section.

example :
    evaluate_status_code (.int 200) 200
    = .ok ⟨true, "Status code is 200", "statusCode", .int 200, .int 200⟩ := by
  simp [evaluate_status_code, pyEq, scalarEq, asNum]
  try rfl

example :
    evaluate_status_code (.int 200) 404
    = .ok ⟨false, "Expected status code 200, got 404", "statusCode", .int 200, .int 404⟩ := by
  simp [evaluate_status_code, pyEq, scalarEq, asNum, pyStr, pyRepr]
  try rfl

example :
    evaluate_status_code (.obj [("in", .arr [.int 200, .int 201])]) 201
    = .ok ⟨true, "Status code 201 is in allowed list", "statusCode",
        .arr [.int 200, .int 201], .int 201⟩ := by
  simp [evaluate_status_code, jLookup, pyContains, pyEq, scalarEq, asNum]
  try rfl

example :
    evaluate_structure (.obj [("count", .str "number"), ("items", .str "array")])
      (.obj [("count", .str "5"), ("items", .arr [])])
    = .ok ⟨false,
        "Structure validation failed: count: Field 'count' expected type 'number', got 'str'",
        "hasStructure", .obj [("count", .str "number"), ("items", .str "array")],
        .arr [.str "count: Field 'count' expected type 'number', got 'str'"]⟩ := rfl

example :
    get_overall_result
      [⟨false, "status failed", "statusCode", .null, .null⟩,
       ⟨false, "fields failed", "requiredFields", .null, .null⟩]
    = (false, some "status failed; fields failed") := rfl

example :
    get_overall_result
      [⟨true, "ok", "statusCode", .null, .null⟩]
    = (true, none) := rfl

example : get_overall_result [] = (true, none) := rfl

example :
    evaluate_response_time (.obj [("max", .int 3000)]) 2500
    = .ok ⟨true, "Response time 2500ms is within 3000ms", "responseTime", .int 3000,
        .float 2500⟩ := by
  simp [evaluate_response_time, pyContains, pyEq, scalarEq, jLookup, pySubscript, pyLEq,
    asNum, pyRound0, pyStr, pyRepr]
  try norm_num
  try rfl
